import Mathlib

/-
Verification of the SAIFGuard repository (lucieyxu/saifguard).

The repository is a thin orchestration layer: an HTTP endpoint (src/app.py)
forwards a user message to a hosted agent (src/saifguard/agent.py) whose tools
(src/saifguard/analysis_tool.py, src/saifguard/gcp_project_tool.py,
src/saifguard/google_search_tool.py) call vendor APIs.

The embedding below is a shallow, trace-instrumented model: every vendor call
(genai generate_content, Asset Inventory search_all_resources, GCS list_blobs,
BigQuery to_gbq) is an oracle field of `Env` returning `Except String`
(`.error e` models a raised exception with message `e`). Each tool function
returns its Python return value together with the ordered list of `CallEvent`s
it performed; the list is built in program order, so the straight-line,
sequential control flow of the source is represented by the order of the
events. Local file writes (`open(...).write`) are also recorded as events.
-/

namespace saifguard

/-! ### Vendor SDK data (google.genai.types, google.cloud.asset_v1), as used
by the repository. -/

namespace genai

/-- Harm categories of google.genai.types.HarmCategory that the model needs
(the repository names only HARM_CATEGORY_DANGEROUS_CONTENT; the others stand
for the remaining platform categories). -/
inductive HarmCategory
  | HARM_CATEGORY_DANGEROUS_CONTENT
  | HARM_CATEGORY_HARASSMENT
  | HARM_CATEGORY_HATE_SPEECH
  | HARM_CATEGORY_SEXUALLY_EXPLICIT
deriving DecidableEq

/-- google.genai.types.HarmBlockThreshold, as used: OFF disables the
platform's filtering for the category it is set on. -/
inductive HarmBlockThreshold
  | OFF
  | BLOCK_NONE
  | BLOCK_ONLY_HIGH
  | BLOCK_MEDIUM_AND_ABOVE
  | BLOCK_LOW_AND_ABOVE
deriving DecidableEq

/-- google.genai.types.SafetySetting. -/
structure SafetySetting where
  category : HarmCategory
  threshold : HarmBlockThreshold
deriving DecidableEq

/-- google.genai.types.Part: the repository builds parts with
Part.from_text and Part.from_uri. -/
inductive Part
  | text (t : String)
  | uri (file_uri : String) (mime_type : Option String)
deriving DecidableEq

/-- The fields of google.genai.types.GenerateContentConfig the repository
sets; a field the call site does not set keeps its default. Temperatures are
exact rationals (0.1 = 1/10, 0.95 = 19/20). -/
structure GenerateContentConfig where
  system_instruction : Option String := none
  temperature : Option ℚ := none
  max_output_tokens : Option ℕ := none
  top_p : Option ℚ := none
  response_mime_type : Option String := none
  response_schema : Option String := none
  tools : List String := []
  safety_settings : List SafetySetting := []
deriving DecidableEq

/-- The arguments of genai.Client(...): vertexai flag, project, location
(the latter two are None when the environment variable is unset). -/
structure GenClient where
  vertexai : Bool
  project : Option String
  location : Option String
deriving DecidableEq

/-- One client.models.generate_content call: the client it is made on, the
model name (None when os.getenv("MODEL") is unset), the contents and the
config. -/
structure GenCall where
  client : GenClient
  model : Option String
  contents : List Part
  config : GenerateContentConfig
deriving DecidableEq

end genai

namespace asset_v1

/-- The request dict passed to AssetServiceClient.search_all_resources in
_get_asset_inventory_resources (gcp_project_tool.py lines 272-312). -/
structure AssetRequest where
  asset_types : List String
  scope : String
  read_mask : List String
deriving DecidableEq

end asset_v1

/-! ### Call events and oracles. -/

/-- One externally visible action of a tool, in program order:
an Asset Inventory API call (with its method name), a generate_content call,
a GCS blob listing, a local file write, or a BigQuery upload. -/
inductive CallEvent
  | assetApi (method : String) (request : asset_v1.AssetRequest)
  | genApi (call : genai.GenCall)
  | storageListBlobs (bucket : String)
  | fileWrite (filename : String) (content : String)
  | bqUpload (destination_table : String) (project_id : String) (if_exists : String)
deriving DecidableEq

/-- The os.environ values the repository reads via os.getenv. -/
structure OSEnv where
  GOOGLE_CLOUD_PROJECT : Option String
  GOOGLE_CLOUD_LOCATION : Option String
  MODEL : Option String
deriving DecidableEq

/-- Modelled from the spec: models/vulnerability.py (imported by
gcp_project_tool.py as `from models.vulnerability import VulnerabilityList`)
is absent from the source tree, so the dashboard row schema is modelled from
the dashboard prompt's example fields (severity, category, name, description,
remediation, url). -/
structure Vulnerability where
  severity : String
  category : String
  name : String
  description : String
  remediation : String
  url : String
deriving DecidableEq

/-- The oracles for the vendor services. `.error e` models the call raising
an exception whose message is `e`; `.ok` models it returning.
`gen` is client.models.generate_content (yielding response.text);
`search_all_resources` yields each found resource as its MessageToJson
serialization; `list_blobs` yields the blob names of a bucket;
`json_loads_vulnerabilities` is json.loads of the dashboard response followed
by the lookup of its "vulnerabilities" key; `to_gbq` is
DataFrame.to_gbq(destination_table, project_id, if_exists="replace"). -/
structure Env where
  gen : genai.GenCall → Except String String
  search_all_resources : asset_v1.AssetRequest → Except String (List String)
  list_blobs : String → Except String (List String)
  json_loads_vulnerabilities : String → Except String (List Vulnerability)
  to_gbq : String → String → Except String Unit

/-! ### saifguard/config.py. -/

namespace config

/-- config.py line 1. -/
def PROJECT_ID : String := "saifguard-gf-rrag-0g"

/-- config.py line 2. -/
def REGION : String := "europe-west4"

/-- config.py line 3. -/
def MODEL : String := "gemini-2.5-flash"

/-- config.py lines 4-29, verbatim. -/
def GOOGLE_SEARCH_SAIF_PROMPT : String := "
<Task>
Retrieve the latest, comprehensive documentation for Google's Secure AI Framework (SAIF).
</Task>

<Sources>
Execute searches focused exclusively on the official `saif.google` domain.
Use search queries targeting these specific pages:
1. `site:saif.google/secure-ai-framework/risks`
2. `site:saif.google/secure-ai-framework/controls`
3. `site:saif.google/ai-development-primer`
4. `site:saif.google/secure-ai-framework/components`
5. `site:saif.google/secure-ai-framework/saif-map`
</Sources>

<Instructions>
From the search results of the pages above, find and extract all detailed information for the following topics:
- All core **components** of the SAIF.
- A comprehensive list of identified **risks** related to AI development.
- All specified **controls** and recommended best practices to mitigate those risks.
</Instructions>

<Output>
Return the full, detailed text for components, risks, and controls. The output must be thorough, as it will be used for downstream processing.
</Output>
"

end config

/-! ### saifguard/google_search_tool.py. -/

namespace google_search_tool

/-- The generate_content call google_search_tool makes (lines 22-39): a
Vertex client from the GOOGLE_CLOUD_PROJECT/GOOGLE_CLOUD_LOCATION environment
variables, the MODEL environment variable, the query as the contents, and a
config whose only setting is the google_search grounding tool. -/
def google_search_call (os : OSEnv) (query : String) : genai.GenCall :=
  { client := { vertexai := true, project := os.GOOGLE_CLOUD_PROJECT,
                location := os.GOOGLE_CLOUD_LOCATION },
    model := os.MODEL,
    contents := [genai.Part.text query],
    config := { tools := ["google_search"] } }

/-- google_search_tool (lines 12-47): returns response.text, or on any
exception the error-message string built in the except branch (line 44). -/
def google_search_tool (env : Env) (os : OSEnv) (query : String) : String :=
  match env.gen (google_search_call os query) with
  | .ok t => t
  | .error e => "An exception occurred while calling Google Search tool: " ++ e

/-- The events of one google_search_tool call: exactly the one
generate_content call (made whether it returns or raises). -/
def google_search_tool_events (os : OSEnv) (query : String) : List CallEvent :=
  [CallEvent.genApi (google_search_call os query)]

end google_search_tool

end saifguard

namespace saifguard

/-! ### saifguard/gcp_project_tool.py. -/

namespace gcp_project_tool

/-- gcp_project_tool.py lines 32-90, verbatim (literal braces do not occur;
the one double quote of line 61 is escaped). -/
def DISCOVERY_TOOL_SYSTEM_PROMPT : String := "
<OBJECTIVE_AND_PERSONA>
You are an expert Application Security (AppSec) engineer. 
Your task is to perform a thorough security audit on this application's deployment using the provided GCP resources of this project ID
and generate a detailed report of your findings.
</OBJECTIVE_AND_PERSONA>

<INSTRUCTIONS>
To complete the task, think step by step and print out the thinking process:
Go through the GCP project's resources provided in context via \"GCP Asset Inventory export\". For each resource:
1. Compare it to the SAIF framework to identify security risks and recommendations. 
2. Look specifically for patterns indicating common vulnerabilities based on the OWASP Top 10. Pay close attention to:
    -   **DDoS vulnerability:** Lack of Web Application Firewall (WAF) such as Cloud Armor not configured on External Load Balancers. Each GCP backend service MUST HAVE a security policy defined.
    -   **Injection Flaws:** SQL, NoSQL, or command injection where user input is concatenated into queries or commands without proper sanitization or parameterization.
    -   **Hardcoded Secrets:** API keys, passwords, private tokens, or other sensitive credentials committed directly into the source code. Use the `grep` results below as a starting point.
    -   **XSS (Cross-Site Scripting):** Locations where unsanitized user input is rendered directly into HTML templates.
    -   **Insecure Deserialization:** Use of unsafe deserialization methods on untrusted data.
    -   **Security Misconfiguration:** Overly permissive CORS headers (`*`), default credentials, or debug features enabled in production-like configurations.
    -   **Sensitive Data Exposure:** Lack of proper encryption for sensitive data at rest or in transit.
Output the resources that contain a security issue with regards to the SAIF framework.
</INSTRUCTIONS>

<EXAMPLE>
This is an example of a critical security issue:

### 🔴 Critical
- **Vulnerability:** Hardcoded AWS Secret Access Key
- **Location:** `[File Path]:[Line Number]`
- **Description:** The secret access key is hardcoded in a script
- **Remediation:** Move the secret to an environment variable and access it via `process.env.AWS_SECRET_KEY`.\"
</EXAMPLE>

<OUTPUT>
Generate your final report in Markdown. For each vulnerability you discover, provide the following details. You must order the findings by severity, from Critical to Medium.

### 🔴 Critical
- **Vulnerability:** 
- **Location:** 
- **Description:** 
- **Remediation:**

### 🟠 High
- **Vulnerability:**
- **Location:**
- **Description:**
- **Remediation:**

### 🟡 Medium
- **Vulnerability:**
- **Location:**
- **Description:**
- **Remediation:**
</OUTPUT>


<RECAP>
* Do not attempt to answer questions without the GCP resources found, always ground them in the GCP Asset Inventory export and Latest SAIF recommendations.
</RECAP>
"

/-- gcp_project_tool.py line 92. -/
def DISCOVERY_TOOL_QUERY_PROMPT : String := "Inspect the GCP project assets provided and generate detailed recommendations to improve the overall security posture. Use the provided Google Search results for the latest SAIF compliance recommendations as a reference."

/-- gcp_project_tool.py lines 95-146, verbatim (the braces of the JSON
example are text, written \x7b and \x7d; the escapes of the Python literal
are rendered as the characters they denote). -/
def DASHBOARD_SYSTEM_PROMPT : String := "
<OBJECTIVE>
A list of vulnerability descriptions from a GCP project is given to you as text. 
You need to transform it into a dataframe to pass to BigQuery for dashboarding.
You need to extract the google cloud console URL for each vulnerable resources to allow the user to click on it.
</OBJECTIVE>

<INSTRUCTIONS>
Think step by step:
1. Identify the vulnerable GCP resources.
2. For each resource, extract the location given as a the name from asset inventory command and produce the GCP console URL. Extract the vulnerability name, description and remediation.
</INSTRUCTIONS>

<FEW_SHOT_EXAMPLES>
# Example 1
## Input
**Vulnerabilities:** 


### 🔴 Critical

* Lack of Web Application Firewall (WAF) / DDoS Protection on External Load Balancer
    *   **Location:** `//compute.googleapis.com/projects/[PROJECT_ID]/global/backendServices/[BACKEND SERVICE NAME]`
    *   **Description:** The external HTTP(S) Load Balancer's backend service (`[BACKEND SERVICE NAME]`) does not have a Cloud Armor security policy attached    *   **Remediation:** Attach a Cloud Armor security policy


### 🔴 Medium

* Disabled Backups for Cloud SQL Instance
    *   **Location:** `//cloudsql.googleapis.com/projects/[PROJECT_ID]/instances/[CLOUD SQL INSTANCE NAME]`
    *   **Description:** The Cloud SQL instance `[CLOUD SQL INSTANCE NAME]` has automated backups disabled *   **Remediation:** Enable automated backups

##Thoughts
1. There are 2 vulnerabilities listed, the first on the external load balancer backend service, the second on Cloud SQL instance
2. //compute.googleapis.com/projects/[PROJECT_ID]/global/backendServices/[BACKEND SERVICE NAME] is mapped to the console URL https://console.cloud.google.com/net-services/loadbalancing/backends/details/backendService/[BACKEND SERVICE NAME]?project=[PROJECT_ID]
//cloudsql.googleapis.com/projects/[PROJECT_ID]/instances/[CLOUD SQL INSTANCE NAME] is mapped to the console URL https://console.cloud.google.com/sql/instances/[CLOUD SQL INSTANCE NAME]/overview?project=[PROJECT_ID]

## Output
[
    \x7b
        severity: \"Critical\"
        category: \"Load Balancer\"
        name: \"Lack of Web Application Firewall (WAF) / DDoS Protection on External Load Balancer\"
        description: \"The external HTTP(S) Load Balancer's backend service (`[BACKEND SERVICE NAME]`) does not have a Cloud Armor security policy attached\"
        remediation: \"Attach a Cloud Armor security policy\"
        url: \"https://console.cloud.google.com/net-services/loadbalancing/backends/details/backendService/[BACKEND SERVICE NAME]?project=[PROJECT_ID]\"
    \x7d,
    \x7b
        severity: \"Medium\"
        category: \"Cloud SQL\"
        name: \"Disabled Backups for Cloud SQL Instance\"
        description: \"The Cloud SQL instance `[CLOUD SQL INSTANCE NAME]` has automated backups disabled\"
        remediation: \"Enable automated backups\"
        url: \"https://console.cloud.google.com/sql/instances/[CLOUD SQL INSTANCE NAME]/overview?project=[PROJECT_ID]\"
    \x7d
]
</FEW_SHOT_EXAMPLES>


<RECAP>
* Keep the vulnerability name, description and remeidation as is, do not change the text
* Convert the location into a GCP console URL
</RECAP>
"

/-- The asset_types list of the search_all_resources request
(gcp_project_tool.py lines 274-308), verbatim. -/
def ASSET_TYPES : List String :=
  ["iam.googleapis.com/ServiceAccountKey",
   "iam.googleapis.com/ServiceAccount",
   "compute.googleapis.com/Route",
   "storage.googleapis.com/Bucket",
   "dns.googleapis.com/ResourceRecordSet",
   "dataplex.googleapis.com/EntryGroup",
   "compute.googleapis.com/ForwardingRule",
   "compute.googleapis.com/Address",
   "logging.googleapis.com/LogSink",
   "logging.googleapis.com/LogBucket",
   "compute.googleapis.com/UrlMap",
   "compute.googleapis.com/Subnetwork",
   "sqladmin.googleapis.com/Instance",
   "servicedirectory.googleapis.com/Service",
   "servicedirectory.googleapis.com/Namespace",
   "servicedirectory.googleapis.com/Endpoint",
   "run.googleapis.com/Service",
   "run.googleapis.com/Revision",
   "run.googleapis.com/Job",
   "dns.googleapis.com/ResponsePolicy",
   "dns.googleapis.com/ManagedZone",
   "compute.googleapis.com/TargetHttpsProxy",
   "compute.googleapis.com/TargetHttpProxy",
   "compute.googleapis.com/SslCertificate",
   "compute.googleapis.com/SecurityPolicy",
   "compute.googleapis.com/Project",
   "compute.googleapis.com/NetworkEndpointGroup",
   "compute.googleapis.com/Network",
   "compute.googleapis.com/BackendService",
   "cloudresourcemanager.googleapis.com/Project",
   "cloudbilling.googleapis.com/ProjectBillingInfo",
   "bigquery.googleapis.com/Table",
   "bigquery.googleapis.com/Dataset"]

/-- The search_all_resources request of lines 272-311: the fixed asset_types,
scope "projects/{project_id}", read_mask ["*"]. -/
def asset_search_request (project_id : String) : asset_v1.AssetRequest :=
  { asset_types := ASSET_TYPES,
    scope := "projects/" ++ project_id,
    read_mask := ["*"] }

/-- _get_asset_inventory_resources (lines 260-318): the value part. Its own
try/except catches any exception of the search_all_resources call, logs it
and returns the empty list (lines 316-318). -/
def _get_asset_inventory_resources (env : Env) (project_id : String) :
    List String :=
  match env.search_all_resources (asset_search_request project_id) with
  | .ok all_resources => all_resources
  | .error _ => []

/-- The events of one _get_asset_inventory_resources call: exactly the one
read-only search_all_resources query (made whether it returns or raises). -/
def asset_inventory_events (project_id : String) : List CallEvent :=
  [CallEvent.assetApi "search_all_resources" (asset_search_request project_id)]

/-- json.dumps(resources_as_dicts, indent=2) of line 172, modelled on the
already-serialized per-resource JSON strings. -/
def json_dumps_list (resources : List String) : String :=
  "[\n" ++ String.intercalate ",\n" resources ++ "\n]"

/-- The genai.Client(vertexai=True, project=PROJECT_ID, location=REGION) the
tools build (gcp_project_tool.py lines 193-197, analysis_tool.py 98-102). -/
def vertex_client : genai.GenClient :=
  { vertexai := true, project := some config.PROJECT_ID,
    location := some config.REGION }

/-- Lines 158-161: saif_recommendations =
google_search_tool(GOOGLE_SEARCH_SAIF_PROMPT). -/
def saif_recommendations_of (env : Env) (os : OSEnv) : String :=
  google_search_tool.google_search_tool env os config.GOOGLE_SEARCH_SAIF_PROMPT

/-- Lines 163-174: the resources and the asset_dump_text built from them
("No resources were found in the project." when the list is empty). -/
def asset_dump_text_of (env : Env) (gcp_project_id : String) : String :=
  let resources := _get_asset_inventory_resources env gcp_project_id
  if resources.isEmpty then "No resources were found in the project."
  else json_dumps_list resources

/-- Lines 176-184: the three prompt parts of the security-report call. -/
def gcp_contents_of (env : Env) (os : OSEnv) (gcp_project_id : String) :
    List genai.Part :=
  [genai.Part.text DISCOVERY_TOOL_QUERY_PROMPT,
   genai.Part.text ("GCP Asset Inventory export:\n"
     ++ asset_dump_text_of env gcp_project_id),
   genai.Part.text ("LATEST SAIF RECOMMENDATIONS:\n"
     ++ saif_recommendations_of env os)]

/-- Lines 192-205: the security-report (summarize) generate_content call. -/
def summarize_call_of (env : Env) (os : OSEnv) (gcp_project_id : String) :
    genai.GenCall :=
  { client := vertex_client,
    model := some config.MODEL,
    contents := gcp_contents_of env os gcp_project_id,
    config := { system_instruction := some DISCOVERY_TOOL_SYSTEM_PROMPT,
                temperature := some ((1 : ℚ)/10) } }

/-- The query of lines 210-215: dedent of the f-string around response.text
(the template's own indentation stripped). -/
def dashboard_query (report_text : String) : String :=
  "\n# Vulnerabilities\n" ++ report_text ++ "\n"

/-- Lines 217-236: the dashboard-formatting generate_content call, with JSON
response_mime_type and the VulnerabilityList response schema. -/
def dashboard_call (report_text : String) : genai.GenCall :=
  { client := vertex_client,
    model := some config.MODEL,
    contents := [genai.Part.text (dashboard_query report_text)],
    config := { system_instruction := some DASHBOARD_SYSTEM_PROMPT,
                temperature := some ((1 : ℚ)/10),
                response_mime_type := some "application/json",
                response_schema := some "VulnerabilityList" } }

/-- The events before the summarize call, in program order (lines 158-190):
the SAIF Google-Search call, the Asset Inventory query, and the two local
debug file writes. -/
def pre_events_of (env : Env) (os : OSEnv) (gcp_project_id : String) :
    List CallEvent :=
  google_search_tool.google_search_tool_events os config.GOOGLE_SEARCH_SAIF_PROMPT
  ++ asset_inventory_events gcp_project_id
  ++ [CallEvent.fileWrite "asset_dump.txt" (asset_dump_text_of env gcp_project_id),
      CallEvent.fileWrite "saif_recommendations.txt" (saif_recommendations_of env os)]

/-- The GENERATE_DASHBOARD branch (lines 208-251), wrapped in its own nested
try/except (lines 209 and 249-250): the dashboard generate_content call
reassigns `response`; its exception leaves `response` as the report, an
exception of any later statement (json.loads, DataFrame, to_gbq) leaves it as
the dashboard response; in every case the branch falls through to line 252.
Returns (the value of response.text at line 252, the branch's events). -/
def dashboard_step (env : Env)
    (DASHBOARD_BQ_PROJECT : String) (DASHBOARD_BQ_LOCATION : String)
    (report_text : String) : String × List CallEvent :=
  match env.gen (dashboard_call report_text) with
  | .error _ => (report_text, [CallEvent.genApi (dashboard_call report_text)])
  | .ok dashboard_text =>
    match env.json_loads_vulnerabilities dashboard_text with
    | .error _ => (dashboard_text, [CallEvent.genApi (dashboard_call report_text)])
    | .ok _vulnerabilities =>
      let destination := DASHBOARD_BQ_PROJECT ++ "." ++ DASHBOARD_BQ_LOCATION
      let _upload := env.to_gbq destination DASHBOARD_BQ_PROJECT
      (dashboard_text,
       [CallEvent.genApi (dashboard_call report_text),
        CallEvent.bqUpload destination DASHBOARD_BQ_PROJECT "replace"])

/-- gcp_project_tool (lines 149-257). GENERATE_DASHBOARD,
DASHBOARD_BQ_PROJECT and DASHBOARD_BQ_LOCATION are parameters because
saifguard/config.py does not define them (they are imported at lines 18-26
but absent from the file). The single outer try/except (lines 155 and
253-257) turns an exception that reaches it into the error-message string of
line 254. Returns (the Python return value, the events in program order). -/
def gcp_project_tool (env : Env) (os : OSEnv) (GENERATE_DASHBOARD : Bool)
    (DASHBOARD_BQ_PROJECT : String) (DASHBOARD_BQ_LOCATION : String)
    (gcp_project_id : String) : String × List CallEvent :=
  match env.gen (summarize_call_of env os gcp_project_id) with
  | .error e =>
    ("An exception occurred while calling GCP project tool: " ++ e,
     pre_events_of env os gcp_project_id
       ++ [CallEvent.genApi (summarize_call_of env os gcp_project_id)])
  | .ok report_text =>
    if GENERATE_DASHBOARD then
      let step := dashboard_step env DASHBOARD_BQ_PROJECT DASHBOARD_BQ_LOCATION
        report_text
      (step.1,
       pre_events_of env os gcp_project_id
         ++ [CallEvent.genApi (summarize_call_of env os gcp_project_id)]
         ++ step.2)
    else
      (report_text,
       pre_events_of env os gcp_project_id
         ++ [CallEvent.genApi (summarize_call_of env os gcp_project_id)])

end gcp_project_tool

end saifguard

namespace saifguard

/-! ### saifguard/analysis_tool.py. -/

namespace analysis_tool

/-- analysis_tool.py lines 13-51, verbatim. -/
def DISCOVERY_TOOL_SYSTEM_PROMPT : String := "
<OBJECTIVE_AND_PERSONA>
You are an expert Application Security (AppSec) engineer. 
Your task is to perform a thorough security audit on documents and generate a detailed report of your findings.
</OBJECTIVE_AND_PERSONA>

<INSTRUCTIONS>
When answering, adhere to the following guildelines:
**Accuracy:** Ensure your answers are factually correct and grounded in the documents provided as a list of uris.
**Detail:** Provide comprehensive and informative answers, elaborating on key concepts and providing context. Be detailed and return an exhaustive answer.
**Language:** Strictly identify the language of ther user query and always repond in the same language regardless of the document language.
</INSTRUCTIONS>

<OUTPUT>
Generate your final report in Markdown. For each vulnerability you discover, provide the following details. You must order the findings by severity, from Critical to Medium.

### 🔴 Critical
- **Vulnerability:** 
- **Location:** 
- **Description:** 
- **Remediation:**

### 🟠 High
- **Vulnerability:**
- **Location:**
- **Description:**
- **Remediation:**

### 🟡 Medium
- **Vulnerability:**
- **Location:**
- **Description:**
- **Remediation:**
</OUTPUT>


<RECAP>
* Do not attempt to answer questions without documents, always ground them in the documents and Latest SAIF recommendations.
</RECAP>"

/-- analysis_tool.py lines 53-59, verbatim. -/
def DISCOVERY_TOOL_QUERY_PROMPT : String := "
Inspect the files provided as a GCS bucket URI and generate detailed recommendations to improve the overall security posture.

The GCS bucket URI contains a Technical Design Document (TDD) and a security requirements document.
Use the security requirements document as input to highlight additional security gaps inside the TDD document on top of SAIF recommendations.
Use the provided Google Search results for the latest SAIF compliance recommendations as a reference.
"

/-- Python str.strip("/"): drops leading and trailing slashes. -/
def strip_slashes (s : String) : String :=
  let cs := (s.toList.dropWhile (fun c => c = '/')).reverse
  String.mk ((cs.dropWhile (fun c => c = '/')).reverse)

/-- Python str.replace on character lists, fuelled by the input length (each
step consumes at least one character, so the fuel never runs out). -/
def replace_fuel (pattern repl : List Char) : ℕ → List Char → List Char
  | _, [] => []
  | 0, l => l
  | fuel + 1, c :: cs =>
    if !pattern.isEmpty && pattern.isPrefixOf (c :: cs) then
      repl ++ replace_fuel pattern repl fuel (List.drop pattern.length (c :: cs))
    else c :: replace_fuel pattern repl fuel cs

/-- Python str.replace(pattern, replacement): every occurrence replaced. -/
def string_replace (s pattern replacement : String) : String :=
  String.mk (replace_fuel pattern.toList replacement.toList s.length s.toList)

/-- Line 79: bucket_name = gcs_uri.replace("gs://", "").strip("/"). -/
def bucket_name_of (gcs_uri : String) : String :=
  strip_slashes (string_replace gcs_uri "gs://" "")

/-- Lines 75-96: the contents list, built from the query prompt, then for
each blob a name part and a uri part (mime_type None), then the SAIF part. -/
def analysis_contents_of (env : Env) (os : OSEnv) (gcs_uri : String)
    (blobs : List String) : List genai.Part :=
  [genai.Part.text DISCOVERY_TOOL_QUERY_PROMPT]
  ++ (blobs.map (fun blob_name =>
        [genai.Part.text ("\nDocument name: " ++ blob_name),
         genai.Part.uri ("gs://" ++ bucket_name_of gcs_uri ++ "/" ++ blob_name)
           none])).flatten
  ++ [genai.Part.text ("LATEST SAIF RECOMMENDATIONS:\n"
       ++ gcp_project_tool.saif_recommendations_of env os)]

/-- Lines 98-110: the document-analysis generate_content call. -/
def analysis_call_of (env : Env) (os : OSEnv) (gcs_uri : String)
    (blobs : List String) : genai.GenCall :=
  { client := gcp_project_tool.vertex_client,
    model := some config.MODEL,
    contents := analysis_contents_of env os gcs_uri blobs,
    config := { system_instruction := some DISCOVERY_TOOL_SYSTEM_PROMPT,
                temperature := some ((1 : ℚ)/10) } }

/-- analysis_tool (lines 62-117): fetches the SAIF recommendations first
(line 73), lists the bucket's blobs, sends the contents to the model, and
returns response.text; one outer try/except (lines 68 and 113-117) turns any
exception into the error-message string of line 114. Returns (the Python
return value, the events in program order). -/
def analysis_tool (env : Env) (os : OSEnv) (gcs_uri : String) :
    String × List CallEvent :=
  match env.list_blobs (bucket_name_of gcs_uri) with
  | .error e =>
    ("An exception occurred while calling analysis_tool: " ++ e,
     google_search_tool.google_search_tool_events os config.GOOGLE_SEARCH_SAIF_PROMPT
       ++ [CallEvent.storageListBlobs (bucket_name_of gcs_uri)])
  | .ok blobs =>
    match env.gen (analysis_call_of env os gcs_uri blobs) with
    | .ok t =>
      (t,
       google_search_tool.google_search_tool_events os config.GOOGLE_SEARCH_SAIF_PROMPT
         ++ [CallEvent.storageListBlobs (bucket_name_of gcs_uri),
             CallEvent.genApi (analysis_call_of env os gcs_uri blobs)])
    | .error e =>
      ("An exception occurred while calling analysis_tool: " ++ e,
       google_search_tool.google_search_tool_events os config.GOOGLE_SEARCH_SAIF_PROMPT
         ++ [CallEvent.storageListBlobs (bucket_name_of gcs_uri),
             CallEvent.genApi (analysis_call_of env os gcs_uri blobs)])

end analysis_tool

/-! ### saifguard/agent.py. -/

namespace agent

/-- agent.py lines 22-33, verbatim. -/
def AGENT_INSTRUCTION_PROMPT : String := "
<OBJECTIVE_AND_PERSONA>
You are an AI assistant tasked with helping developpers make sure their applications on GCP
follow the SAIF Security framework.
</OBJECTIVE_AND_PERSONA>

<INSTRUCTIONS>
To complete the task, think step by step and print out the thinking process. Use the tools you have available:
* Use the 'analysis_tool' when the user provides a GCS path to analyse
* Use the 'gcp_project_tool' when the user asks to scan a GCP project to check the resources created
</INSTRUCTIONS>
"

/-- The tool functions of this repository an Agent could be given. -/
inductive ToolName
  | analysis_tool
  | gcp_project_tool
  | google_search_tool
deriving DecidableEq

/-- agent.py lines 41-46: the safety_settings list built in
SAIFGuardAgent.__init__ — one setting, DANGEROUS_CONTENT at threshold OFF. -/
def safety_settings : List genai.SafetySetting :=
  [{ category := genai.HarmCategory.HARM_CATEGORY_DANGEROUS_CONTENT,
     threshold := genai.HarmBlockThreshold.OFF }]

/-- agent.py lines 47-52: the GenerateContentConfig passed to the Agent. -/
def generate_content_config : genai.GenerateContentConfig :=
  { safety_settings := safety_settings,
    temperature := some ((1 : ℚ)/10),
    max_output_tokens := some 1000,
    top_p := some ((19 : ℚ)/20) }

/-- The google.adk.agents.Agent arguments, as far as configured here. -/
structure AgentDef where
  model : Option String
  name : String
  description : String
  generate_content_config : genai.GenerateContentConfig
  instruction : String
  tools : List ToolName
deriving DecidableEq

/-- agent.py lines 54-63: the Agent constructed in SAIFGuardAgent.__init__;
its tools list is [analysis_tool, gcp_project_tool]. -/
def SAIFGuardAgent_agent (os : OSEnv) : AgentDef :=
  { model := os.MODEL,
    name := "SAIFGuard",
    description := "SAIFGuard helps you secure your apps on GCP.",
    generate_content_config := generate_content_config,
    instruction := AGENT_INSTRUCTION_PROMPT,
    tools := [ToolName.analysis_tool, ToolName.gcp_project_tool] }

/-- One event yielded by Runner.run: whether it is a final response, and its
content's part texts (none models event.content being None). -/
structure AdkEvent where
  is_final_response : Bool
  content : Option (List String)
deriving DecidableEq

/-- The loop of SAIFGuardAgent.invoke (lines 114-120): for each final event
with non-empty content parts, yield the parts joined with a newline. -/
def final_responses (events : List AdkEvent) : List String :=
  events.filterMap (fun event =>
    match event.content with
    | some parts =>
      if event.is_final_response && !parts.isEmpty then
        some (String.intercalate "\n" parts)
      else none
    | none => none)

/-- SAIFGuardAgent.invoke (lines 99-134): runs Runner.run on the stored
user/session ids with the message as the new Content and streams the final
responses. The runner oracle takes (user_id, session_id, message); `.error`
models the run raising. The session state_delta appends (lines 102-112 and
122-134) write the message/response into the fixed session and do not affect
the streamed output. -/
def SAIFGuardAgent_invoke
    (runner : String → String → String → Except String (List AdkEvent))
    (user_id : String) (session_id : String) (message : String) :
    Except String (List String) :=
  match runner user_id session_id message with
  | .ok events => .ok (final_responses events)
  | .error e => .error e

end agent

end saifguard

/-! ### src/models/query_request.py. -/

namespace models

namespace query_request

/-- QueryRequest (query_request.py lines 4-8): the request body of POST
/invoke. -/
structure QueryRequest where
  user_id : String
  message : String
deriving DecidableEq

end query_request

end models

/-! ### src/app.py. -/

namespace app

/-- app.py line 24: the single fixed user of every request. -/
def USER_ID : String := "user1"

/-- app.py line 24: the single fixed session of every request. -/
def SESSION_ID : String := "session1"

/-- What the /invoke handler returns: a StreamingResponse with its chunks and
media type, or an HTTPException with status code and detail. -/
inductive FastapiResponse
  | streaming (chunks : List String) (media_type : String)
  | http_exception (status_code : ℕ) (detail : String)
deriving DecidableEq

/-- invoke_agent (app.py lines 43-60): calls agent.invoke with exactly
request.message and wraps the stream in StreamingResponse(media_type
"text/plain"); an exception becomes HTTPException(500). Besides the response
it returns the list of (user_id, session_id, message) triples handed to
Runner.run — always the fixed user1/session1 pair with the verbatim message;
request.user_id is never read. -/
def invoke_agent
    (runner : String → String → String → Except String (List saifguard.agent.AdkEvent))
    (request : models.query_request.QueryRequest) :
    FastapiResponse × List (String × String × String) :=
  (match saifguard.agent.SAIFGuardAgent_invoke runner USER_ID SESSION_ID
      request.message with
   | .ok chunks => FastapiResponse.streaming chunks "text/plain"
   | .error e => FastapiResponse.http_exception 500 e,
   [(USER_ID, SESSION_ID, request.message)])

end app

/-! ### Import resolution (the module-level imports of the source tree).

Python resolves a `from M import a, b` statement at module load: it fails
with ModuleNotFoundError when no file of the tree provides M, and with
ImportError when M exists but does not bind one of the requested names.
External packages (fastapi, google.*, pandas, pydantic, ...) are assumed
importable; only the repository's own modules are resolved here. -/

namespace imports

/-- One `from module import names` statement between repository modules. -/
structure FromImport where
  module : String
  names : List String
deriving DecidableEq

/-- The top-level names each repository module binds (its importable
attributes), or none when the source tree has no file for the module.
models/ holds only query_request.py: there is no models/vulnerability.py.
saifguard/config.py (lines 1-29) binds exactly PROJECT_ID, REGION, MODEL and
GOOGLE_SEARCH_SAIF_PROMPT. -/
def module_exports (module : String) : Option (List String) :=
  if module = "saifguard.config" then
    some ["PROJECT_ID", "REGION", "MODEL", "GOOGLE_SEARCH_SAIF_PROMPT"]
  else if module = "saifguard.google_search_tool" then
    some ["os", "logging", "traceback", "genai", "types", "LOGGER",
          "google_search_tool"]
  else if module = "saifguard.analysis_tool" then
    some ["logging", "traceback", "storage", "genai", "types", "MODEL",
          "PROJECT_ID", "REGION", "GOOGLE_SEARCH_SAIF_PROMPT",
          "google_search_tool", "LOGGER", "DISCOVERY_TOOL_SYSTEM_PROMPT",
          "DISCOVERY_TOOL_QUERY_PROMPT", "analysis_tool"]
  else if module = "saifguard.gcp_project_tool" then
    some ["json", "logging", "traceback", "time", "dedent", "List", "pd",
          "trace", "genai", "asset_v1", "types", "field_mask_pb2",
          "MessageToJson", "VulnerabilityList", "DASHBOARD_BQ_LOCATION",
          "DASHBOARD_BQ_PROJECT", "GENERATE_DASHBOARD",
          "GOOGLE_SEARCH_SAIF_PROMPT", "MODEL", "PROJECT_ID", "REGION",
          "google_search_tool", "LOGGER", "DISCOVERY_TOOL_SYSTEM_PROMPT",
          "DISCOVERY_TOOL_QUERY_PROMPT", "DASHBOARD_SYSTEM_PROMPT",
          "gcp_project_tool", "_get_asset_inventory_resources"]
  else if module = "saifguard.agent" then
    some ["os", "asyncio", "logging", "time", "Agent", "Event",
          "EventActions", "Runner", "InMemorySessionService",
          "InMemoryMemoryService", "aiplatform", "types", "Content", "Part",
          "analysis_tool", "gcp_project_tool", "load_memory", "LOGGER",
          "AGENT_INSTRUCTION_PROMPT", "SAIFGuardAgent"]
  else if module = "models.query_request" then
    some ["BaseModel", "QueryRequest"]
  else none

/-- Whether one from-import statement resolves: the module has a file and
binds every requested name. -/
def from_import_ok (fi : FromImport) : Bool :=
  match module_exports fi.module with
  | none => false
  | some exports => fi.names.all (fun n => exports.contains n)

/-- gcp_project_tool.py lines 15-27: its from-imports of repository
modules. -/
def gcp_project_tool_from_imports : List FromImport :=
  [{ module := "models.vulnerability", names := ["VulnerabilityList"] },
   { module := "saifguard.config",
     names := ["DASHBOARD_BQ_LOCATION", "DASHBOARD_BQ_PROJECT",
               "GENERATE_DASHBOARD", "GOOGLE_SEARCH_SAIF_PROMPT", "MODEL",
               "PROJECT_ID", "REGION"] },
   { module := "saifguard.google_search_tool",
     names := ["google_search_tool"] }]

/-- analysis_tool.py lines 7-8: its from-imports of repository modules. -/
def analysis_tool_from_imports : List FromImport :=
  [{ module := "saifguard.config",
     names := ["MODEL", "PROJECT_ID", "REGION", "GOOGLE_SEARCH_SAIF_PROMPT"] },
   { module := "saifguard.google_search_tool",
     names := ["google_search_tool"] }]

/-- agent.py lines 14-15: its from-imports of repository modules. -/
def agent_from_imports : List FromImport :=
  [{ module := "saifguard.analysis_tool", names := ["analysis_tool"] },
   { module := "saifguard.gcp_project_tool", names := ["gcp_project_tool"] }]

/-- app.py lines 8-9: its from-imports of repository modules. -/
def app_from_imports : List FromImport :=
  [{ module := "models.query_request", names := ["QueryRequest"] },
   { module := "saifguard.agent", names := ["SAIFGuardAgent"] }]

/-- Importing saifguard.config succeeds (no repository imports of its own). -/
def config_import_ok : Bool := true

/-- Importing saifguard.google_search_tool succeeds (external imports only). -/
def google_search_tool_import_ok : Bool := true

/-- Importing models.query_request succeeds (external imports only). -/
def query_request_import_ok : Bool := true

/-- Whether importing saifguard.analysis_tool succeeds: its own from-imports
must resolve (its imported repository modules import nothing further that
could fail). -/
def analysis_tool_import_ok : Bool :=
  config_import_ok && google_search_tool_import_ok
    && analysis_tool_from_imports.all from_import_ok

/-- Whether importing saifguard.gcp_project_tool succeeds. -/
def gcp_project_tool_import_ok : Bool :=
  config_import_ok && google_search_tool_import_ok
    && gcp_project_tool_from_imports.all from_import_ok

/-- Whether importing saifguard.agent succeeds: it imports analysis_tool and
gcp_project_tool, so their module loads must succeed too, and its own
from-imports must resolve. -/
def agent_import_ok : Bool :=
  analysis_tool_import_ok && gcp_project_tool_import_ok
    && agent_from_imports.all from_import_ok

/-- Whether importing src/app.py succeeds. -/
def app_import_ok : Bool :=
  query_request_import_ok && agent_import_ok
    && app_from_imports.all from_import_ok

end imports

namespace saifguard

/-! ### Trace predicates. -/

/-- Whether an event is an Asset Inventory API call. -/
def is_asset_api : CallEvent → Bool
  | .assetApi _ _ => true
  | _ => false

/-- Whether an event is a generate_content call. -/
def is_gen_api : CallEvent → Bool
  | .genApi _ => true
  | _ => false

/-- The pipeline calls of gcp_project_tool named by the spec: the Asset
Inventory query and the two LLM calls that carry a system prompt (the report
call and the dashboard call). The SAIF Google-Search call carries no system
prompt, and file writes and the BigQuery upload are not API calls of the
pipeline. -/
def is_pipeline_call : CallEvent → Bool
  | .assetApi _ _ => true
  | .genApi call => call.config.system_instruction.isSome
  | _ => false

/-- Whether the needle occurs in the haystack, on character lists. -/
def contains_chars (needle : List Char) : List Char → Bool
  | [] => needle.isEmpty
  | c :: cs => needle.isPrefixOf (c :: cs) || contains_chars needle cs

/-- Python substring test (`needle in haystack`). -/
def contains_str (haystack needle : String) : Bool :=
  contains_chars needle.toList haystack.toList

/-- Whether a text part carries the given text as a substring. -/
def part_carries (needle : String) : genai.Part → Bool
  | .text t => contains_str t needle
  | .uri _ _ => false

/-- Whether an event's payload carries the given text: a file write whose
content contains it, or a generate_content call one of whose text parts
contains it. -/
def event_carries (needle : String) : CallEvent → Bool
  | .fileWrite _ content => contains_str content needle
  | .genApi call => call.contents.any (part_carries needle)
  | _ => false

/-! ### Concrete fixtures for witnesses and counterexamples. -/

/-- A fixture environment: every oracle returns. The gen oracle answers
"DASHBOARD_ROWS" to the JSON-mime dashboard call, "REPORT" to a call with a
system prompt, and "SAIF_TEXT" to the grounded search call. -/
def gen_ok (call : genai.GenCall) : Except String String :=
  if call.config.response_mime_type = some "application/json" then
    .ok "DASHBOARD_ROWS"
  else if call.config.system_instruction.isSome then .ok "REPORT"
  else .ok "SAIF_TEXT"

def env_ok : Env :=
  { gen := gen_ok,
    search_all_resources := fun _ => .ok ["RESOURCE_A"],
    list_blobs := fun _ => .ok ["tdd.pdf"],
    json_loads_vulnerabilities := fun _ => .ok [],
    to_gbq := fun _ _ => .ok () }

/-- The fixture with the Asset Inventory call raising. -/
def env_asset_fail : Env :=
  { env_ok with search_all_resources := fun _ => .error "asset boom" }

/-- The gen oracle with both LLM prompt calls raising (the grounded search
call still returns). -/
def gen_llm_fail (call : genai.GenCall) : Except String String :=
  if call.config.system_instruction.isSome then .error "llm down"
  else .ok "SAIF_TEXT"

/-- The fixture with both LLM prompt calls raising. -/
def env_llm_fail : Env :=
  { env_ok with gen := gen_llm_fail }

/-- The gen oracle with only the dashboard call raising. -/
def gen_dashboard_fail (call : genai.GenCall) : Except String String :=
  if call.config.response_mime_type = some "application/json" then
    .error "dashboard down"
  else if call.config.system_instruction.isSome then .ok "REPORT"
  else .ok "SAIF_TEXT"

/-- The fixture with only the dashboard call raising. -/
def env_dashboard_fail : Env :=
  { env_ok with gen := gen_dashboard_fail }

/-- A fixture os.environ with every variable set. -/
def os0 : OSEnv :=
  { GOOGLE_CLOUD_PROJECT := some "saifguard-gf-rrag-0g",
    GOOGLE_CLOUD_LOCATION := some "europe-west4",
    MODEL := some "gemini-2.5-flash" }

/-- A fixture runner yielding one final event. -/
def runner0 : String → String → String → Except String (List agent.AdkEvent) :=
  fun _ _ _ => .ok [{ is_final_response := true, content := some ["hello"] }]

end saifguard

/-! ## Helper lemmas shared by the claim theorems. -/

open saifguard

/-- Unfolding gcp_project_tool when the security-report call returns. -/
theorem gcp_tool_eq_of_ok (env : Env) (os : OSEnv) (gd : Bool)
    (bqp bql pid rpt : String)
    (h : env.gen (gcp_project_tool.summarize_call_of env os pid) = .ok rpt) :
    gcp_project_tool.gcp_project_tool env os gd bqp bql pid =
      if gd then
        ((gcp_project_tool.dashboard_step env bqp bql rpt).1,
         gcp_project_tool.pre_events_of env os pid
           ++ [CallEvent.genApi (gcp_project_tool.summarize_call_of env os pid)]
           ++ (gcp_project_tool.dashboard_step env bqp bql rpt).2)
      else
        (rpt,
         gcp_project_tool.pre_events_of env os pid
           ++ [CallEvent.genApi (gcp_project_tool.summarize_call_of env os pid)]) := by
  unfold gcp_project_tool.gcp_project_tool
  rw [h]

/-- Unfolding gcp_project_tool when the security-report call raises. -/
theorem gcp_tool_eq_of_err (env : Env) (os : OSEnv) (gd : Bool)
    (bqp bql pid e : String)
    (h : env.gen (gcp_project_tool.summarize_call_of env os pid) = .error e) :
    gcp_project_tool.gcp_project_tool env os gd bqp bql pid =
      ("An exception occurred while calling GCP project tool: " ++ e,
       gcp_project_tool.pre_events_of env os pid
         ++ [CallEvent.genApi (gcp_project_tool.summarize_call_of env os pid)]) := by
  unfold gcp_project_tool.gcp_project_tool
  rw [h]

/-- When the dashboard call returns, the dashboard branch ends with the
dashboard text whatever happens to json.loads or to_gbq. -/
theorem dashboard_step_fst_of_ok (env : Env) (bqp bql rpt dash : String)
    (h : env.gen (gcp_project_tool.dashboard_call rpt) = .ok dash) :
    (gcp_project_tool.dashboard_step env bqp bql rpt).1 = dash := by
  unfold gcp_project_tool.dashboard_step
  rw [h]
  dsimp only
  rcases env.json_loads_vulnerabilities dash with e | v <;> rfl

/-- When the dashboard call raises, the branch ends with the report text. -/
theorem dashboard_step_fst_of_err (env : Env) (bqp bql rpt e : String)
    (h : env.gen (gcp_project_tool.dashboard_call rpt) = .error e) :
    (gcp_project_tool.dashboard_step env bqp bql rpt).1 = rpt := by
  unfold gcp_project_tool.dashboard_step
  rw [h]

/-- The pipeline calls of the dashboard branch: exactly its one LLM call. -/
theorem dashboard_step_filter_pipeline (env : Env) (bqp bql rpt : String) :
    (gcp_project_tool.dashboard_step env bqp bql rpt).2.filter is_pipeline_call
      = [CallEvent.genApi (gcp_project_tool.dashboard_call rpt)] := by
  unfold gcp_project_tool.dashboard_step
  rcases env.gen (gcp_project_tool.dashboard_call rpt) with e | d
  · rfl
  · dsimp only
    rcases env.json_loads_vulnerabilities d with e2 | v <;> rfl

/-- The dashboard branch makes no Asset Inventory call. -/
theorem dashboard_step_filter_asset (env : Env) (bqp bql rpt : String) :
    (gcp_project_tool.dashboard_step env bqp bql rpt).2.filter is_asset_api = [] := by
  unfold gcp_project_tool.dashboard_step
  rcases env.gen (gcp_project_tool.dashboard_call rpt) with e | d
  · rfl
  · dsimp only
    rcases env.json_loads_vulnerabilities d with e2 | v <;> rfl

/-- The pipeline calls before the report call: exactly the Asset Inventory
query (the SAIF search call carries no system prompt; file writes are not
API calls). -/
theorem pre_events_filter_pipeline (env : Env) (os : OSEnv) (pid : String) :
    (gcp_project_tool.pre_events_of env os pid).filter is_pipeline_call
      = [CallEvent.assetApi "search_all_resources"
           (gcp_project_tool.asset_search_request pid)] := rfl

/-- The Asset Inventory calls before the report call: exactly the one
search_all_resources query. -/
theorem pre_events_filter_asset (env : Env) (os : OSEnv) (pid : String) :
    (gcp_project_tool.pre_events_of env os pid).filter is_asset_api
      = [CallEvent.assetApi "search_all_resources"
           (gcp_project_tool.asset_search_request pid)] := rfl

/-- The first event of every gcp_project_tool run is the SAIF Google-Search
call. -/
theorem gcp_trace_head (env : Env) (os : OSEnv) (gd : Bool) (bqp bql pid : String) :
    (gcp_project_tool.gcp_project_tool env os gd bqp bql pid).2.head?
      = some (CallEvent.genApi
          (google_search_tool.google_search_call os config.GOOGLE_SEARCH_SAIF_PROMPT)) := by
  unfold gcp_project_tool.gcp_project_tool
  rcases env.gen (gcp_project_tool.summarize_call_of env os pid) with e | rpt
  · rfl
  · cases gd <;> rfl

/-- The first event of every analysis_tool run is the SAIF Google-Search
call. -/
theorem analysis_trace_head (env : Env) (os : OSEnv) (gcs_uri : String) :
    (analysis_tool.analysis_tool env os gcs_uri).2.head?
      = some (CallEvent.genApi
          (google_search_tool.google_search_call os config.GOOGLE_SEARCH_SAIF_PROMPT)) := by
  unfold analysis_tool.analysis_tool
  rcases env.list_blobs (analysis_tool.bucket_name_of gcs_uri) with e | blobs
  · rfl
  · dsimp only
    rcases env.gen (analysis_tool.analysis_call_of env os gcs_uri blobs)
      with e2 | t <;> rfl

/-- Every gcp_project_tool run records its security-report LLM call. -/
theorem gcp_summarize_call_mem (env : Env) (os : OSEnv) (gd : Bool)
    (bqp bql pid : String) :
    CallEvent.genApi (gcp_project_tool.summarize_call_of env os pid)
      ∈ (gcp_project_tool.gcp_project_tool env os gd bqp bql pid).2 := by
  unfold gcp_project_tool.gcp_project_tool
  rcases env.gen (gcp_project_tool.summarize_call_of env os pid) with e | rpt
  · simp
  · cases gd <;> simp

/-! ## Claim theorems. -/

/-- C1: for every call of gcp_project_tool (with the dashboard enabled and
the report call returning, so the whole pipeline runs), the
asset-inventory-to-report-to-dashboard pipeline is exactly three API calls in
this order: the Asset Inventory resource listing, then the report (summarize)
LLM call, then the dashboard-reformatting LLM call — each made exactly once
(no retries, no caching) in the sequential, straight-line event order of the
embedding (no scheduling or concurrency). -/
theorem C1_pipeline_three_sequential_calls (env : Env) (os : OSEnv)
    (bqp bql pid rpt : String)
    (h : env.gen (gcp_project_tool.summarize_call_of env os pid) = .ok rpt) :
    (gcp_project_tool.gcp_project_tool env os true bqp bql pid).2.filter
        is_pipeline_call
      = [CallEvent.assetApi "search_all_resources"
           (gcp_project_tool.asset_search_request pid),
         CallEvent.genApi (gcp_project_tool.summarize_call_of env os pid),
         CallEvent.genApi (gcp_project_tool.dashboard_call rpt)] := by
  rw [gcp_tool_eq_of_ok env os true bqp bql pid rpt h]
  simp only [if_pos, List.filter_append, pre_events_filter_pipeline,
    dashboard_step_filter_pipeline]
  rfl

/-- C1 witness: the pipeline theorem at the all-returning fixture. -/
theorem C1_pipeline_three_sequential_calls_witness :
    env_ok.gen (gcp_project_tool.summarize_call_of env_ok os0 "p") = .ok "REPORT"
    ∧ (gcp_project_tool.gcp_project_tool env_ok os0 true "bp" "bl" "p").2.filter
          is_pipeline_call
        = [CallEvent.assetApi "search_all_resources"
             (gcp_project_tool.asset_search_request "p"),
           CallEvent.genApi (gcp_project_tool.summarize_call_of env_ok os0 "p"),
           CallEvent.genApi (gcp_project_tool.dashboard_call "REPORT")] :=
  ⟨rfl, C1_pipeline_three_sequential_calls env_ok os0 "bp" "bl" "p" "REPORT" rfl⟩

/-- C2 counterexample: when the Asset Inventory call raises ("asset boom"),
gcp_project_tool does not return an error-message string — the inner
try/except of _get_asset_inventory_resources substitutes the empty list as a
fallback result and the tool returns the LLM report ("REPORT") built from
"No resources were found in the project.". -/
theorem C2_counterexample_asset_exception_recovered :
    env_asset_fail.search_all_resources (gcp_project_tool.asset_search_request "p")
      = .error "asset boom"
    ∧ (gcp_project_tool.gcp_project_tool env_asset_fail os0 false "bp" "bl" "p").1
      = "REPORT"
    ∧ contains_str
        (gcp_project_tool.gcp_project_tool env_asset_fail os0 false "bp" "bl" "p").1
        "An exception occurred" = false
    ∧ gcp_project_tool.asset_dump_text_of env_asset_fail "p"
      = "No resources were found in the project." :=
  ⟨rfl, rfl, by decide, rfl⟩

/-- C2 amended: the error handling of gcp_project_tool is layered, not a
single try/except per call. (a) An exception of the Asset Inventory call is
caught inside _get_asset_inventory_resources, which substitutes the empty
resource list, and the tool behaves exactly as if the query had returned no
resources; (b) an exception of the report LLM call reaches the single outer
try/except, which returns the error-message string; (c) an exception of the
dashboard LLM call is caught by the nested inner try/except and the tool
falls back to returning the report. -/
theorem C2_amended_layered_error_recovery (env : Env) (os : OSEnv) (gd : Bool)
    (bqp bql pid e rpt : String) :
    (env.search_all_resources (gcp_project_tool.asset_search_request pid)
        = .error e →
      gcp_project_tool.gcp_project_tool env os gd bqp bql pid
        = gcp_project_tool.gcp_project_tool
            { env with search_all_resources := fun _ => .ok [] }
            os gd bqp bql pid)
    ∧ (env.gen (gcp_project_tool.summarize_call_of env os pid) = .error e →
        (gcp_project_tool.gcp_project_tool env os gd bqp bql pid).1
          = "An exception occurred while calling GCP project tool: " ++ e)
    ∧ (env.gen (gcp_project_tool.summarize_call_of env os pid) = .ok rpt →
        env.gen (gcp_project_tool.dashboard_call rpt) = .error e →
        (gcp_project_tool.gcp_project_tool env os true bqp bql pid).1 = rpt) := by
  refine ⟨fun ha => ?_, fun hs => ?_, fun hr hd => ?_⟩
  · simp [gcp_project_tool.gcp_project_tool, gcp_project_tool.summarize_call_of,
      gcp_project_tool.gcp_contents_of, gcp_project_tool.asset_dump_text_of,
      gcp_project_tool._get_asset_inventory_resources,
      gcp_project_tool.saif_recommendations_of, gcp_project_tool.pre_events_of,
      gcp_project_tool.dashboard_step, google_search_tool.google_search_tool,
      google_search_tool.google_search_call,
      google_search_tool.google_search_tool_events, ha]
  · rw [gcp_tool_eq_of_err env os gd bqp bql pid e hs]
  · rw [gcp_tool_eq_of_ok env os true bqp bql pid rpt hr]
    simp only [if_pos]
    exact dashboard_step_fst_of_err env bqp bql rpt e hd

/-- C2 amended witness: the three recovery behaviours at concrete fixtures:
the asset failure is recovered by the empty-list fallback, the report-call
failure yields the outer error-message string, the dashboard failure falls
back to the report. -/
theorem C2_amended_layered_error_recovery_witness :
    gcp_project_tool.gcp_project_tool env_asset_fail os0 false "bp" "bl" "p"
      = gcp_project_tool.gcp_project_tool
          { env_asset_fail with search_all_resources := fun _ => .ok [] }
          os0 false "bp" "bl" "p"
    ∧ (gcp_project_tool.gcp_project_tool env_llm_fail os0 false "bp" "bl" "p").1
      = "An exception occurred while calling GCP project tool: llm down"
    ∧ (gcp_project_tool.gcp_project_tool env_dashboard_fail os0 true "bp" "bl" "p").1
      = "REPORT" :=
  ⟨(C2_amended_layered_error_recovery env_asset_fail os0 false "bp" "bl" "p"
      "asset boom" "REPORT").1 rfl,
   (C2_amended_layered_error_recovery env_llm_fail os0 false "bp" "bl" "p"
      "llm down" "REPORT").2.1 rfl,
   (C2_amended_layered_error_recovery env_dashboard_fail os0 true "bp" "bl" "p"
      "dashboard down" "REPORT").2.2 rfl rfl⟩

/-- C8: when GENERATE_DASHBOARD is enabled and the dashboard-formatting LLM
call returns, gcp_project_tool returns the dashboard (JSON rows) text — the
variable holding the report response is reassigned before the final return —
while the Markdown report is returned when GENERATE_DASHBOARD is disabled or
when the dashboard branch raises before that reassignment. -/
theorem C8_dashboard_reassignment_decides_return (env : Env) (os : OSEnv)
    (bqp bql pid rpt dash e : String)
    (h : env.gen (gcp_project_tool.summarize_call_of env os pid) = .ok rpt) :
    (env.gen (gcp_project_tool.dashboard_call rpt) = .ok dash →
      (gcp_project_tool.gcp_project_tool env os true bqp bql pid).1 = dash)
    ∧ (gcp_project_tool.gcp_project_tool env os false bqp bql pid).1 = rpt
    ∧ (env.gen (gcp_project_tool.dashboard_call rpt) = .error e →
        (gcp_project_tool.gcp_project_tool env os true bqp bql pid).1 = rpt) := by
  refine ⟨fun hd => ?_, ?_, fun hd => ?_⟩
  · rw [gcp_tool_eq_of_ok env os true bqp bql pid rpt h]
    simp only [if_pos]
    exact dashboard_step_fst_of_ok env bqp bql rpt dash hd
  · rw [gcp_tool_eq_of_ok env os false bqp bql pid rpt h]
    rfl
  · rw [gcp_tool_eq_of_ok env os true bqp bql pid rpt h]
    simp only [if_pos]
    exact dashboard_step_fst_of_err env bqp bql rpt e hd

/-- C8 witness: with the all-returning fixture the dashboard text is
returned when the flag is on and the report when it is off; with the
dashboard-failing fixture the report is returned although the flag is on. -/
theorem C8_dashboard_reassignment_decides_return_witness :
    (gcp_project_tool.gcp_project_tool env_ok os0 true "bp" "bl" "p").1
      = "DASHBOARD_ROWS"
    ∧ (gcp_project_tool.gcp_project_tool env_ok os0 false "bp" "bl" "p").1
      = "REPORT"
    ∧ (gcp_project_tool.gcp_project_tool env_dashboard_fail os0 true "bp" "bl" "p").1
      = "REPORT" :=
  ⟨(C8_dashboard_reassignment_decides_return env_ok os0 "bp" "bl" "p" "REPORT"
      "DASHBOARD_ROWS" "x" rfl).1 rfl,
   (C8_dashboard_reassignment_decides_return env_ok os0 "bp" "bl" "p" "REPORT"
      "DASHBOARD_ROWS" "x" rfl).2.1,
   (C8_dashboard_reassignment_decides_return env_dashboard_fail os0 "bp" "bl" "p"
      "REPORT" "DASHBOARD_ROWS" "dashboard down" rfl).2.2 rfl⟩

/-- C3: for every POST /invoke request that parses as a QueryRequest, the
handler hands exactly the request's message field to the hosted runtime (the
runner receives the verbatim message, under the fixed user/session) and,
when the run returns, wraps the agent's final responses in a streamed
text/plain response — no other processing of the message. -/
theorem C3_invoke_forwards_message_and_streams
    (runner : String → String → String → Except String (List saifguard.agent.AdkEvent))
    (request : models.query_request.QueryRequest)
    (events : List saifguard.agent.AdkEvent)
    (h : runner app.USER_ID app.SESSION_ID request.message = .ok events) :
    (app.invoke_agent runner request).1
      = app.FastapiResponse.streaming (saifguard.agent.final_responses events)
          "text/plain"
    ∧ (app.invoke_agent runner request).2
      = [(app.USER_ID, app.SESSION_ID, request.message)] := by
  unfold app.invoke_agent saifguard.agent.SAIFGuardAgent_invoke
  rw [h]
  exact ⟨rfl, rfl⟩

/-- C3 witness: the forwarding theorem at a concrete request and runner. -/
theorem C3_invoke_forwards_message_and_streams_witness :
    runner0 app.USER_ID app.SESSION_ID "hi"
      = .ok [{ is_final_response := true, content := some ["hello"] }]
    ∧ (app.invoke_agent runner0 { user_id := "alice", message := "hi" }).1
      = app.FastapiResponse.streaming ["hello"] "text/plain"
    ∧ (app.invoke_agent runner0 { user_id := "alice", message := "hi" }).2
      = [("user1", "session1", "hi")] :=
  ⟨rfl,
   (C3_invoke_forwards_message_and_streams runner0
      { user_id := "alice", message := "hi" }
      [{ is_final_response := true, content := some ["hello"] }] rfl).1,
   (C3_invoke_forwards_message_and_streams runner0
      { user_id := "alice", message := "hi" }
      [{ is_final_response := true, content := some ["hello"] }] rfl).2⟩

/-- C4 counterexample: the Agent's tools list does not contain a web-search
tool — it has exactly two entries (analysis_tool and gcp_project_tool), so
the configured tool set is not "document analysis, cloud-asset inventory
scanning, and web search". -/
theorem C4_counterexample_no_web_search_tool :
    saifguard.agent.ToolName.google_search_tool
        ∉ (saifguard.agent.SAIFGuardAgent_agent os0).tools
    ∧ (saifguard.agent.SAIFGuardAgent_agent os0).tools.length = 2 := by
  exact ⟨by decide, rfl⟩

/-- C4 amended: the hosted agent is configured with exactly two callable
tools — document analysis (analysis_tool) and cloud-asset inventory scanning
(gcp_project_tool); web search is not a registered agent tool but is invoked
internally by both tools (the first event of every run of either tool is the
grounded Google-Search call). -/
theorem C4_amended_two_tools_search_internal (os : OSEnv) (env : Env)
    (gd : Bool) (bqp bql pid gcs_uri : String) :
    (saifguard.agent.SAIFGuardAgent_agent os).tools
      = [saifguard.agent.ToolName.analysis_tool,
         saifguard.agent.ToolName.gcp_project_tool]
    ∧ (gcp_project_tool.gcp_project_tool env os gd bqp bql pid).2.head?
      = some (CallEvent.genApi
          (google_search_tool.google_search_call os config.GOOGLE_SEARCH_SAIF_PROMPT))
    ∧ (analysis_tool.analysis_tool env os gcs_uri).2.head?
      = some (CallEvent.genApi
          (google_search_tool.google_search_call os config.GOOGLE_SEARCH_SAIF_PROMPT)) :=
  ⟨rfl, gcp_trace_head env os gd bqp bql pid, analysis_trace_head env os gcs_uri⟩

/-- C5 counterexample: the agent's GenerateContentConfig does not leave the
platform's safety enforcement unaltered — it carries a safety setting, and
that setting turns the DANGEROUS_CONTENT harm category OFF. -/
theorem C5_counterexample_dangerous_content_off :
    saifguard.agent.generate_content_config.safety_settings ≠ []
    ∧ ({ category := genai.HarmCategory.HARM_CATEGORY_DANGEROUS_CONTENT,
         threshold := genai.HarmBlockThreshold.OFF } : genai.SafetySetting)
        ∈ saifguard.agent.generate_content_config.safety_settings := by
  exact ⟨by decide, by decide⟩

/-- C5 amended: the repository delegates safety filtering to the platform
for every harm category except one: the agent's model-invocation config
disables (threshold OFF) the platform's filtering for exactly
HARM_CATEGORY_DANGEROUS_CONTENT and configures no other category. -/
theorem C5_amended_only_dangerous_content_disabled :
    saifguard.agent.generate_content_config.safety_settings
      = [{ category := genai.HarmCategory.HARM_CATEGORY_DANGEROUS_CONTENT,
           threshold := genai.HarmBlockThreshold.OFF }]
    ∧ saifguard.agent.generate_content_config.safety_settings.map
        genai.SafetySetting.category
      = [genai.HarmCategory.HARM_CATEGORY_DANGEROUS_CONTENT]
    ∧ saifguard.agent.generate_content_config.safety_settings.map
        genai.SafetySetting.threshold
      = [genai.HarmBlockThreshold.OFF] := by
  exact ⟨rfl, rfl, rfl⟩

/-- C9: importing saifguard.gcp_project_tool fails on every run —
models.vulnerability is not a module of the source tree, and
DASHBOARD_BQ_LOCATION, DASHBOARD_BQ_PROJECT and GENERATE_DASHBOARD are not
bound by saifguard.config — and therefore importing saifguard.agent and
src/app.py, which import it transitively, fails too. -/
theorem C9_imports_fail_on_every_run :
    imports.module_exports "models.vulnerability" = none
    ∧ imports.from_import_ok
        { module := "models.vulnerability", names := ["VulnerabilityList"] } = false
    ∧ imports.from_import_ok
        { module := "saifguard.config", names := ["DASHBOARD_BQ_LOCATION"] } = false
    ∧ imports.from_import_ok
        { module := "saifguard.config", names := ["DASHBOARD_BQ_PROJECT"] } = false
    ∧ imports.from_import_ok
        { module := "saifguard.config", names := ["GENERATE_DASHBOARD"] } = false
    ∧ imports.gcp_project_tool_import_ok = false
    ∧ imports.agent_import_ok = false
    ∧ imports.app_import_ok = false := by
  exact ⟨rfl, by decide, by decide, by decide, by decide, by decide, by decide,
    by decide⟩

/-- C10: the /invoke handler's behaviour is identical for any two requests
with equal message fields — request.user_id is never read — and every
request is processed under the fixed user "user1" and session "session1"
bound at startup. -/
theorem C10_user_id_never_read
    (runner : String → String → String → Except String (List saifguard.agent.AdkEvent))
    (r1 r2 : models.query_request.QueryRequest)
    (h : r1.message = r2.message) :
    app.invoke_agent runner r1 = app.invoke_agent runner r2
    ∧ (app.invoke_agent runner r1).2 = [("user1", "session1", r1.message)] := by
  constructor
  · unfold app.invoke_agent
    rw [h]
  · rfl

/-- C10 witness: two requests differing only in user_id get identical
responses, under user1/session1. -/
theorem C10_user_id_never_read_witness :
    app.invoke_agent runner0 { user_id := "alice", message := "scan" }
      = app.invoke_agent runner0 { user_id := "bob", message := "scan" }
    ∧ (app.invoke_agent runner0 { user_id := "alice", message := "scan" }).2
      = [("user1", "session1", "scan")] :=
  C10_user_id_never_read runner0 { user_id := "alice", message := "scan" }
    { user_id := "bob", message := "scan" } rfl

/-- C6: in both analysis_tool and gcp_project_tool, SAIF guidance is fetched
first via the web-search call — google_search_tool applied to
GOOGLE_SEARCH_SAIF_PROMPT, a grounded generate_content call whose contents
are exactly that prompt — and the fetched text (exactly what the search
oracle returned, not a repository constant) is injected into the prompt
contents sent to the model as the part labelled "LATEST SAIF
RECOMMENDATIONS". -/
theorem C6_saif_fetched_by_search_and_injected (env : Env) (os : OSEnv)
    (gd : Bool) (bqp bql pid gcs_uri s : String) (blobs : List String)
    (hb : env.list_blobs (analysis_tool.bucket_name_of gcs_uri) = .ok blobs)
    (hs : env.gen (google_search_tool.google_search_call os
            config.GOOGLE_SEARCH_SAIF_PROMPT) = .ok s) :
    (google_search_tool.google_search_call os
        config.GOOGLE_SEARCH_SAIF_PROMPT).contents
      = [genai.Part.text config.GOOGLE_SEARCH_SAIF_PROMPT]
    ∧ (google_search_tool.google_search_call os
        config.GOOGLE_SEARCH_SAIF_PROMPT).config.tools = ["google_search"]
    ∧ gcp_project_tool.saif_recommendations_of env os = s
    ∧ (gcp_project_tool.gcp_project_tool env os gd bqp bql pid).2.head?
      = some (CallEvent.genApi (google_search_tool.google_search_call os
          config.GOOGLE_SEARCH_SAIF_PROMPT))
    ∧ genai.Part.text ("LATEST SAIF RECOMMENDATIONS:\n"
        ++ gcp_project_tool.saif_recommendations_of env os)
      ∈ (gcp_project_tool.summarize_call_of env os pid).contents
    ∧ CallEvent.genApi (gcp_project_tool.summarize_call_of env os pid)
      ∈ (gcp_project_tool.gcp_project_tool env os gd bqp bql pid).2
    ∧ (analysis_tool.analysis_tool env os gcs_uri).2.head?
      = some (CallEvent.genApi (google_search_tool.google_search_call os
          config.GOOGLE_SEARCH_SAIF_PROMPT))
    ∧ genai.Part.text ("LATEST SAIF RECOMMENDATIONS:\n"
        ++ gcp_project_tool.saif_recommendations_of env os)
      ∈ (analysis_tool.analysis_call_of env os gcs_uri blobs).contents
    ∧ CallEvent.genApi (analysis_tool.analysis_call_of env os gcs_uri blobs)
      ∈ (analysis_tool.analysis_tool env os gcs_uri).2 := by
  refine ⟨rfl, rfl, ?_, gcp_trace_head env os gd bqp bql pid, ?_,
    gcp_summarize_call_mem env os gd bqp bql pid,
    analysis_trace_head env os gcs_uri, ?_, ?_⟩
  · unfold gcp_project_tool.saif_recommendations_of
      google_search_tool.google_search_tool
    rw [hs]
  · simp [gcp_project_tool.summarize_call_of, gcp_project_tool.gcp_contents_of]
  · simp [analysis_tool.analysis_call_of, analysis_tool.analysis_contents_of]
  · unfold analysis_tool.analysis_tool
    rw [hb]
    dsimp only
    rcases env.gen (analysis_tool.analysis_call_of env os gcs_uri blobs)
      with e | t <;> simp

/-- C6 witness: the SAIF-injection theorem at the all-returning fixture. -/
theorem C6_saif_fetched_by_search_and_injected_witness :
    env_ok.list_blobs (analysis_tool.bucket_name_of "gs://bucket/")
      = .ok ["tdd.pdf"]
    ∧ env_ok.gen (google_search_tool.google_search_call os0
        config.GOOGLE_SEARCH_SAIF_PROMPT) = .ok "SAIF_TEXT"
    ∧ gcp_project_tool.saif_recommendations_of env_ok os0 = "SAIF_TEXT"
    ∧ genai.Part.text ("LATEST SAIF RECOMMENDATIONS:\nSAIF_TEXT")
      ∈ (gcp_project_tool.summarize_call_of env_ok os0 "p").contents :=
  ⟨rfl, rfl,
   (C6_saif_fetched_by_search_and_injected env_ok os0 false "bp" "bl" "p"
      "gs://bucket/" "SAIF_TEXT" ["tdd.pdf"] rfl rfl).2.2.1,
   (C6_saif_fetched_by_search_and_injected env_ok os0 false "bp" "bl" "p"
      "gs://bucket/" "SAIF_TEXT" ["tdd.pdf"] rfl rfl).2.2.2.2.1⟩

/-- C7 counterexample: the Asset Inventory results are not used solely as
input context for the LLM report — gcp_project_tool also writes the
serialized results to the local debug file asset_dump.txt: the run's trace
contains a file-write event that carries the resource dump and is not a
generate_content call. -/
theorem C7_counterexample_dump_written_to_file :
    CallEvent.fileWrite "asset_dump.txt"
        (gcp_project_tool.asset_dump_text_of env_ok "p")
      ∈ (gcp_project_tool.gcp_project_tool env_ok os0 false "bp" "bl" "p").2
    ∧ event_carries (gcp_project_tool.asset_dump_text_of env_ok "p")
        (CallEvent.fileWrite "asset_dump.txt"
          (gcp_project_tool.asset_dump_text_of env_ok "p")) = true
    ∧ is_gen_api (CallEvent.fileWrite "asset_dump.txt"
        (gcp_project_tool.asset_dump_text_of env_ok "p")) = false
    ∧ gcp_project_tool.asset_dump_text_of env_ok "p" = "[\nRESOURCE_A\n]" :=
  ⟨by decide, by decide, rfl, rfl⟩

/-- C7 amended: gcp_project_tool never writes to the Asset Inventory
service — its only Asset Inventory interaction, on every run, is the single
read-only search_all_resources query — and the results feed the prompt part
"GCP Asset Inventory export" of the report LLM call and, additionally, the
local debug file asset_dump.txt. -/
theorem C7_amended_read_only_asset_inventory (env : Env) (os : OSEnv)
    (gd : Bool) (bqp bql pid : String) :
    (gcp_project_tool.gcp_project_tool env os gd bqp bql pid).2.filter
        is_asset_api
      = [CallEvent.assetApi "search_all_resources"
          (gcp_project_tool.asset_search_request pid)]
    ∧ CallEvent.fileWrite "asset_dump.txt"
        (gcp_project_tool.asset_dump_text_of env pid)
      ∈ (gcp_project_tool.gcp_project_tool env os gd bqp bql pid).2
    ∧ genai.Part.text ("GCP Asset Inventory export:\n"
        ++ gcp_project_tool.asset_dump_text_of env pid)
      ∈ (gcp_project_tool.summarize_call_of env os pid).contents
    ∧ CallEvent.genApi (gcp_project_tool.summarize_call_of env os pid)
      ∈ (gcp_project_tool.gcp_project_tool env os gd bqp bql pid).2 := by
  refine ⟨?_, ?_, ?_, gcp_summarize_call_mem env os gd bqp bql pid⟩
  · rcases h : env.gen (gcp_project_tool.summarize_call_of env os pid) with e | rpt
    · rw [gcp_tool_eq_of_err env os gd bqp bql pid e h]
      simp [List.filter_append, pre_events_filter_asset, is_asset_api]
    · cases gd
      · rw [gcp_tool_eq_of_ok env os false bqp bql pid rpt h]
        simp [List.filter_append, pre_events_filter_asset, is_asset_api]
      · rw [gcp_tool_eq_of_ok env os true bqp bql pid rpt h]
        simp [List.filter_append, pre_events_filter_asset,
          dashboard_step_filter_asset, is_asset_api]
  · rcases h : env.gen (gcp_project_tool.summarize_call_of env os pid) with e | rpt
    · rw [gcp_tool_eq_of_err env os gd bqp bql pid e h]
      simp [gcp_project_tool.pre_events_of]
    · cases gd
      · rw [gcp_tool_eq_of_ok env os false bqp bql pid rpt h]
        simp [gcp_project_tool.pre_events_of]
      · rw [gcp_tool_eq_of_ok env os true bqp bql pid rpt h]
        simp [gcp_project_tool.pre_events_of]
  · simp [gcp_project_tool.summarize_call_of, gcp_project_tool.gcp_contents_of]
